import Mathlib

/-!
Shallow embedding of the PyHttpFs filesystem bridge (`pyhttpfs/pyhttpfs.py`
and `pyhttpfs/types.py`).

Modelling conventions:
* Python `dict`s become association lists with Python-dict semantics
  (`dictLookup`, `dictInsert`, `dictErase`); keys are `Nat`.
* Python objects (`File` instances) live on an explicit heap
  (`FsState.heap`, a list indexed by object id), so aliasing between the
  inode map and the `children` lists is represented faithfully.
* Python exceptions are the `PyError` type.  `PyError.fuseError code`
  models a raised `pyfuse3.FUSEError(code)` (the handled FUSE signal);
  the other constructors model Python exceptions that the bridge does not
  convert (`KeyError`, `AttributeError`, `AssertionError`, ...), i.e.
  errors that propagate uncaught out of the callback.
* Each bridge callback is a function `args → FsState → FsState × Except PyError α`:
  the returned state is the state of the mutable maps when the callback
  returns or raises (Python mutations performed before an exception are
  kept, exactly as in CPython).
* Network I/O is an oracle (`Remote`): `listing url` is the parsed JSON
  body of `GET url` (or a failure), `content url` the raw bytes of a file
  download.  `FsState.fetchCount` is ghost state counting oracle calls.
* `datetime` arithmetic is abstracted: a `Timestamp` stores the three
  ISO-8601 wire strings; no claim inspects time values.
-/

/-- Errno values used by the bridge (`errno.ENOENT`, `errno.EINVAL`). -/
def ENOENT : Nat := 2

def EINVAL : Nat := 22

/-- `os.O_CREAT` on Linux. -/
def O_CREAT : Nat := 64

/-- `pyfuse3.ROOT_INODE`. -/
def ROOT_INODE : Nat := 1

/-- Outcomes of a bridge callback: a raised `pyfuse3.FUSEError` (the only
error the dispatcher contract understands) or an ordinary Python exception
escaping the handler uncaught. -/
inductive PyError where
  /-- an uncaught `KeyError` (e.g. a missing dict key) -/
  | keyError
  /-- an uncaught `AttributeError` (e.g. `None.l_inode()`) -/
  | attributeError
  /-- an uncaught `AssertionError` (a failed `assert`) -/
  | assertionError
  /-- an uncaught `OSError` (e.g. `os.read` on a bad descriptor) -/
  | osError
  /-- a network / HTTP / JSON-parse failure raised by the `httpx` client -/
  | httpError
  /-- unbounded recursion (cannot occur on the acyclic heaps the bridge builds) -/
  | recursionError
  /-- `raise pyfuse3.FUSEError(errno)` -/
  | fuseError (errno : Nat)
  deriving Repr, DecidableEq

/-! ### Python dict semantics over association lists -/

def dictLookup {α : Type} (k : Nat) : List (Nat × α) → Option α
  | [] => none
  | (k', v) :: rest => if k = k' then some v else dictLookup k rest

def dictErase {α : Type} (k : Nat) : List (Nat × α) → List (Nat × α)
  | [] => []
  | (k', v) :: rest => if k' = k then dictErase k rest else (k', v) :: dictErase k rest

def dictInsert {α : Type} (k : Nat) (v : α) (m : List (Nat × α)) : List (Nat × α) :=
  (k, v) :: dictErase k m

/-! ### Timestamps (`types.py`, class `Timestamp`)

A `Timestamp` holds the three instants; we keep the ISO-8601 wire strings
(`datetime` parsing/formatting and the nanosecond conversions are pure and
never inspected by a claim). -/

structure Timestamp where
  mtime : String
  atime : String
  ctime : String
  deriving Repr, DecidableEq

/-- The JSON object under the `timestamp` key of a wire record; `none`
fields model absent keys (accessing one raises `KeyError`). -/
structure TimestampJson where
  mtime : Option String := none
  atime : Option String := none
  ctime : Option String := none
  deriving Repr, DecidableEq

/-- `json_data['k']`: a missing key raises `KeyError`. -/
def getKey {α : Type} : Option α → Except PyError α
  | some v => Except.ok v
  | none => Except.error PyError.keyError

/-- `Timestamp.from_json`: reads `mtime`/`atime`/`ctime` from the JSON
object (`KeyError` when absent). -/
def Timestamp.from_json (j : TimestampJson) : Except PyError Timestamp := do
  let m ← getKey j.mtime
  let a ← getKey j.atime
  let c ← getKey j.ctime
  return { mtime := m, atime := a, ctime := c }

/-! ### Tree nodes (`types.py`, class `File`)

`FileData` is the per-object payload of one `File` dict; `parent` and
`children` are object ids into the heap (Python references). -/

structure FileData where
  st_path : String
  st_dev : Nat
  st_inode : Nat
  st_mode : Nat
  st_nlink : Nat
  st_uid : Nat
  st_gid : Nat
  st_size : Nat
  timestamp : Timestamp
  children : List Nat
  parent : Option Nat
  walked : Bool
  deriving Repr, DecidableEq

/-- One entry record of a listing response; `none` fields model absent
JSON keys.  `parent` carries the wire value (`null` ⇒ `some none`). -/
structure JsonRecord where
  st_path : Option String := none
  st_dev : Option Nat := none
  st_inode : Option Nat := none
  st_mode : Option Nat := none
  st_nlink : Option Nat := none
  st_uid : Option Nat := none
  st_gid : Option Nat := none
  st_size : Option Nat := none
  timestamp : Option TimestampJson := none
  children : Option (List Nat) := none
  parent : Option (Option Nat) := none
  walked : Option Bool := none
  deriving Repr, DecidableEq

/-- `File.from_json` (`types.py` lines 78–91): builds the dict payload from
a JSON record, raising `KeyError` on any missing field. -/
def File.from_json (j : JsonRecord) : Except PyError FileData := do
  let path ← getKey j.st_path
  let dev ← getKey j.st_dev
  let inode ← getKey j.st_inode
  let mode ← getKey j.st_mode
  let nlink ← getKey j.st_nlink
  let uid ← getKey j.st_uid
  let gid ← getKey j.st_gid
  let size ← getKey j.st_size
  let tsj ← getKey j.timestamp
  let ts ← Timestamp.from_json tsj
  let ch ← getKey j.children
  let par ← getKey j.parent
  let w ← getKey j.walked
  return { st_path := path, st_dev := dev, st_inode := inode, st_mode := mode,
           st_nlink := nlink, st_uid := uid, st_gid := gid, st_size := size,
           timestamp := ts, children := ch, parent := par, walked := w }

/-- `File.l_inode` (`types.py` lines 110–111): synthetic inode. -/
def l_inode (d : FileData) : Nat := d.st_dev * d.st_inode

/-- `os.path.basename`: the component after the last slash. -/
def basename (p : String) : String :=
  match (p.splitOn "/").reverse with
  | [] => ""
  | x :: _ => x

/-- `File.basename`. -/
def FileData.bname (d : FileData) : String := basename d.st_path

/-! ### Bridge state (`HttpFs.__init__`, `pyhttpfs.py` lines 30–44) -/

structure FsState where
  /-- the Python object heap: object id ↦ `File` payload (ids are list indices) -/
  heap : List FileData
  /-- `self._inode_to_file_map` : synthetic inode ↦ object id -/
  inodeMap : List (Nat × Nat)
  /-- `self._inode_to_tmpfile_map` : inode ↦ file descriptor -/
  tmpfileMap : List (Nat × Nat)
  /-- `self._fd_inode_map` : file descriptor ↦ inode -/
  fdInodeMap : List (Nat × Nat)
  /-- `self._fd_open_count` : file descriptor ↦ open-reference count -/
  fdOpenCount : List (Nat × Nat)
  /-- contents of the open `TemporaryFile`s: descriptor ↦ cached bytes -/
  tmpfiles : List (Nat × List Nat)
  /-- next OS file descriptor handed to `TemporaryFile` -/
  nextFd : Nat
  /-- ghost: number of HTTP requests issued so far -/
  fetchCount : Nat
  deriving Repr, DecidableEq

def heapGet (s : FsState) (i : Nat) : Option FileData := s.heap.get? i

/-- Allocate a fresh Python object; returns the new state and its id. -/
def heapAlloc (s : FsState) (d : FileData) : FsState × Nat :=
  ({ s with heap := s.heap ++ [d] }, s.heap.length)

/-- Mutate the object with id `i` in place (no-op on a dangling id, which
the bridge never produces). -/
def heapModify (s : FsState) (i : Nat) (f : FileData → FileData) : FsState :=
  match s.heap.get? i with
  | some d => { s with heap := s.heap.set i (f d) }
  | none => s

/-- `File.full_path` (`types.py` lines 113–120): rebuild the absolute path
by walking `parent` references.  `fuel` bounds the walk (Python recursion);
the bridge only builds trees shorter than the heap, so
`fuel = s.heap.length` never runs out in reachable states. -/
def full_path (s : FsState) : Nat → Nat → Option String
  | 0, _ => none
  | fuel + 1, objId =>
    match heapGet s objId with
    | none => none
    | some d =>
      match d.parent with
      | none => some "/"
      | some pId =>
        match full_path s fuel pId with
        | none => none
        | some pp => some ((if pp = "/" then pp else pp ++ "/") ++ d.st_path)

/-- `File.push_child` (`types.py` lines 122–124): sets `walked = True` and
appends the child reference — note: on *every* call, not once at the end of
a load. -/
def push_child (s : FsState) (pobjId cId : Nat) : FsState :=
  heapModify s pobjId (fun d => { d with walked := true, children := d.children ++ [cId] })

/-- The remote HTTP server, as an oracle: `listing url` is the decoded JSON
array answered to `GET url`; `content url` is the raw body of a file
download.  An `Except.error` is a network or parse failure. -/
structure Remote where
  listing : String → Except PyError (List JsonRecord)
  content : String → Except PyError (List Nat)

/-! ### Lazy loader (`HttpFs._load_children`, `pyhttpfs.py` lines 74–82) -/

/-- The `for f in (json listing)` loop body of `_load_children`:

    c = File.from_json(f)          -- a first File object
    c['parent'] = pobj
    pobj.push_child(File.from_json(f))  -- a second, distinct File object
    self._inode_to_file_map[c.l_inode()] = c

A `KeyError` inside `File.from_json` aborts the loop, keeping every
mutation already performed (CPython semantics).

`load_children_step` is the state effect of one successful iteration:
`cData` is the value of the first `File.from_json(f)` (the object `c`,
given `parent = pobj` and registered in the inode map), `c2Data` that of
the second call (the distinct object handed to `push_child`). -/
def load_children_step (pobjId : Nat) (cData c2Data : FileData) (s : FsState) : FsState :=
  let s1 := (heapAlloc s cData).1
  let cId := s.heap.length
  let s2 := heapModify s1 cId (fun d => { d with parent := some pobjId })
  let s3 := (heapAlloc s2 c2Data).1
  let c2Id := s2.heap.length
  let s4 := push_child s3 pobjId c2Id
  { s4 with inodeMap := dictInsert (l_inode cData) cId s4.inodeMap }

def load_children_loop (pobjId : Nat) : List JsonRecord → FsState → FsState × Except PyError Unit
  | [], s => (s, Except.ok ())
  | f :: rest, s =>
    match File.from_json f with
    | Except.error e => (s, Except.error e)
    | Except.ok cData =>
      match File.from_json f with
      | Except.error e => (s, Except.error e)
      | Except.ok c2Data =>
        load_children_loop pobjId rest (load_children_step pobjId cData c2Data s)

/-- `HttpFs._load_children`: builds the listing URL from the node's full
path, performs the HTTP GET (counted in `fetchCount`), then runs the
per-record loop. -/
def load_children (r : Remote) (baseUrl : String) (pobjId : Nat) (s : FsState) :
    FsState × Except PyError Unit :=
  match full_path s s.heap.length pobjId with
  | none => (s, Except.error PyError.recursionError)
  | some fp =>
    let s1 := { s with fetchCount := s.fetchCount + 1 }
    match r.listing (baseUrl ++ fp) with
    | Except.error e => (s1, Except.error e)
    | Except.ok records => load_children_loop pobjId records s1

/-! ### Attribute translation (`HttpFs._getattr`, lines 87–99) -/

structure EntryAttributes where
  st_ino : Nat
  st_mode : Nat
  st_nlink : Nat
  st_uid : Nat
  st_gid : Nat
  st_rdev : Nat
  st_size : Nat
  /-- stands for the three `st_*time_ns` fields (pure functions of the
  node's timestamp; the float nanosecond conversion is abstracted) -/
  timestamp : Timestamp
  generation : Nat
  entry_timeout : Nat
  attr_timeout : Nat
  st_blksize : Nat
  st_blocks : Nat
  deriving Repr, DecidableEq

/-- `HttpFs._getattr` composed with `File.stat` (`types.py` lines 93–105):
pure translation of a node into the dispatcher's attribute structure. -/
def getattr_pure (d : FileData) : EntryAttributes :=
  { st_ino := l_inode d, st_mode := d.st_mode, st_nlink := d.st_nlink,
    st_uid := d.st_uid, st_gid := d.st_gid, st_rdev := d.st_dev,
    st_size := d.st_size, timestamp := d.timestamp,
    generation := 0, entry_timeout := 0, attr_timeout := 0,
    st_blksize := 512, st_blocks := (d.st_size + 512 - 1) / 512 }

/-- `HttpFs.getattr` (lines 84–85): `self._inode_to_file_map[inode]` is not
guarded, so an unknown inode raises an uncaught `KeyError`. -/
def getattr (inode : Nat) (s : FsState) : FsState × Except PyError EntryAttributes :=
  match dictLookup inode s.inodeMap with
  | none => (s, Except.error PyError.keyError)
  | some objId =>
    match heapGet s objId with
    | none => (s, Except.error PyError.keyError)
    | some d => (s, Except.ok (getattr_pure d))

/-! ### Lookup (`HttpFs.lookup`, lines 50–72) -/

/-- The `for c in map[inode_p]['children']` scan: first child whose
basename equals `name`, yielding its synthetic inode. -/
def findChildInode (s : FsState) (name : String) : List Nat → Option Nat
  | [] => none
  | cId :: rest =>
    match heapGet s cId with
    | none => findChildInode s name rest
    | some cd => if cd.bname = name then some (l_inode cd) else findChildInode s name rest

/-- `HttpFs.lookup`: the `try` block resolves `.`/`..`/a child name to an
inode; only `KeyError` is converted to `FUSEError(ENOENT)` — the
`AttributeError` from `None.l_inode()` (root's absent parent) propagates.
The final `getattr` call sits outside the `try`. -/
def lookup (inode_p : Nat) (name : String) (s : FsState) :
    FsState × Except PyError EntryAttributes :=
  let tryRes : Except PyError (Option Nat) :=
    if name = "." then Except.ok (some inode_p)
    else if name = ".." then
      match dictLookup inode_p s.inodeMap with
      | none => Except.error PyError.keyError
      | some objId =>
        match heapGet s objId with
        | none => Except.error PyError.keyError
        | some d =>
          match d.parent with
          | none => Except.error PyError.attributeError
          | some pId =>
            match heapGet s pId with
            | none => Except.error PyError.keyError
            | some pd => Except.ok (some (l_inode pd))
    else
      match dictLookup inode_p s.inodeMap with
      | none => Except.error PyError.keyError
      | some objId =>
        match heapGet s objId with
        | none => Except.error PyError.keyError
        | some d => Except.ok (findChildInode s name d.children)
  match tryRes with
  | Except.error PyError.keyError => (s, Except.error (PyError.fuseError ENOENT))
  | Except.error e => (s, Except.error e)
  | Except.ok none => (s, Except.error (PyError.fuseError ENOENT))
  | Except.ok (some inode) => getattr inode s

/-! ### Directory reading (`HttpFs.readdir`, lines 108–129) -/

/-- comparison used by Python's `sorted(entries)` on `(st_ino, name, …)`
tuples: lexicographic on inode then name. -/
def entryLe (a b : Nat × String) : Bool :=
  a.1 < b.1 || (a.1 = b.1 && a.2 ≤ b.2)

def insertEntry (a : Nat × String) : List (Nat × String) → List (Nat × String)
  | [] => [a]
  | b :: rest => if entryLe a b then a :: b :: rest else b :: insertEntry a rest

def sortEntries : List (Nat × String) → List (Nat × String)
  | [] => []
  | a :: rest => insertEntry a (sortEntries rest)

/-- The entry-emission half of `readdir`: enumerate `children`, skip `.`
and `..`, pair each basename with its synthetic inode, sort, and emit
entries with inode greater than `off`.  (The attribute triple that
accompanies each name is `getattr_pure` of the child — a pure function of
the pair — and the dispatcher's `readdir_reply` back-pressure is modelled
as accepting every entry.) -/
def readdir_emit (s : FsState) (objId off : Nat) : Except PyError (List (Nat × String)) :=
  match heapGet s objId with
  | none => Except.error PyError.keyError
  | some d =>
    let entries := d.children.filterMap (fun cId =>
      match heapGet s cId with
      | none => none
      | some cd =>
        if cd.bname = "." || cd.bname = ".." then none
        else some (l_inode cd, cd.bname))
    Except.ok ((sortEntries entries).filter (fun e => decide (off < e.1)))

/-- `HttpFs.readdir`: `map[inode]` unguarded (`KeyError` on unknown inode);
fetches the listing via `_load_children` only when `walked` is false. -/
def readdir (r : Remote) (baseUrl : String) (inode off : Nat) (s : FsState) :
    FsState × Except PyError (List (Nat × String)) :=
  match dictLookup inode s.inodeMap with
  | none => (s, Except.error PyError.keyError)
  | some objId =>
    match heapGet s objId with
    | none => (s, Except.error PyError.keyError)
    | some d =>
      if d.walked then (s, readdir_emit s objId off)
      else
        match load_children r baseUrl objId s with
        | (s1, Except.error e) => (s1, Except.error e)
        | (s1, Except.ok ()) => (s1, readdir_emit s1 objId off)

/-! ### Open-file cache (`HttpFs.open`/`read`/`release`, lines 168–211) -/

/-- `HttpFs.open`: the cache-hit branch runs *before* the `O_CREAT`
assert; on a miss the assert is checked, the full content is downloaded
into a fresh `TemporaryFile` (descriptor `s.nextFd`), and only on complete
success are the three maps updated (a failed download leaves no entry
registered).  Returns the handle id (`fd.fileno()`). -/
def fsOpen (r : Remote) (baseUrl : String) (inode flags : Nat) (s : FsState) :
    FsState × Except PyError Nat :=
  match dictLookup inode s.tmpfileMap with
  | some fd =>
    match dictLookup fd s.fdOpenCount with
    | none => (s, Except.error PyError.keyError)
    | some n => ({ s with fdOpenCount := dictInsert fd (n + 1) s.fdOpenCount }, Except.ok fd)
  | none =>
    if flags &&& O_CREAT ≠ 0 then (s, Except.error PyError.assertionError)
    else
      match dictLookup inode s.inodeMap with
      | none => (s, Except.error PyError.keyError)
      | some objId =>
        match full_path s s.heap.length objId with
        | none => (s, Except.error PyError.recursionError)
        | some fp =>
          let fd := s.nextFd
          let s1 := { s with nextFd := s.nextFd + 1, fetchCount := s.fetchCount + 1 }
          match r.content (baseUrl ++ fp) with
          | Except.error e => (s1, Except.error e)
          | Except.ok bytes =>
            ({ s1 with tmpfiles := dictInsert fd bytes s1.tmpfiles,
                       tmpfileMap := dictInsert inode fd s1.tmpfileMap,
                       fdInodeMap := dictInsert fd inode s1.fdInodeMap,
                       fdOpenCount := dictInsert fd 1 s1.fdOpenCount },
             Except.ok fd)

/-- `HttpFs.read` (lines 193–195): `os.lseek(fd, offset)` then
`os.read(fd, length)` — the bytes of the cached file from `offset`, at
most `length` of them.  An unknown descriptor is an `OSError`. -/
def fsRead (fd offset length : Nat) (s : FsState) :
    FsState × Except PyError (List Nat) :=
  match dictLookup fd s.tmpfiles with
  | none => (s, Except.error PyError.osError)
  | some content => (s, Except.ok ((content.drop offset).take length))

/-- `HttpFs.release` (lines 201–211): decrement the reference count; on
the last release close the temporary file and drop all three map entries.
`self._fd_open_count[fd]` is unguarded (`KeyError` on a bad handle). -/
def release (fd : Nat) (s : FsState) : FsState × Except PyError Unit :=
  match dictLookup fd s.fdOpenCount with
  | none => (s, Except.error PyError.keyError)
  | some n =>
    if 1 < n then
      ({ s with fdOpenCount := dictInsert fd (n - 1) s.fdOpenCount }, Except.ok ())
    else
      let s1 := { s with fdOpenCount := dictErase fd s.fdOpenCount }
      match dictLookup fd s1.fdInodeMap with
      | none => (s1, Except.error PyError.keyError)
      | some inode =>
        ({ s1 with tmpfiles := dictErase fd s1.tmpfiles,
                   tmpfileMap := dictErase inode s1.tmpfileMap,
                   fdInodeMap := dictErase fd s1.fdInodeMap },
         Except.ok ())

/-! ### Rejected mutating operations (`pyhttpfs.py` lines 131–166, 189–199)

Each handler logs and raises `FUSEError(EINVAL)` before touching any
state. -/

def unlink (_inode_p : Nat) (_name : String) (s : FsState) : FsState × Except PyError Unit :=
  (s, Except.error (PyError.fuseError EINVAL))

def rmdir (_inode_p : Nat) (_name : String) (s : FsState) : FsState × Except PyError Unit :=
  (s, Except.error (PyError.fuseError EINVAL))

def symlink (_inode_p : Nat) (_name _target : String) (s : FsState) :
    FsState × Except PyError Unit :=
  (s, Except.error (PyError.fuseError EINVAL))

def rename (_inode_p_old : Nat) (_name_old : String) (_inode_p_new : Nat)
    (_name_new : String) (_flags : Nat) (s : FsState) : FsState × Except PyError Unit :=
  (s, Except.error (PyError.fuseError EINVAL))

def link (_inode _new_inode_p : Nat) (_new_name : String) (s : FsState) :
    FsState × Except PyError Unit :=
  (s, Except.error (PyError.fuseError EINVAL))

def setattr (_inode _attr _fields _fh : Nat) (s : FsState) : FsState × Except PyError Unit :=
  (s, Except.error (PyError.fuseError EINVAL))

def mknod (_inode_p : Nat) (_name : String) (_mode _rdev : Nat) (s : FsState) :
    FsState × Except PyError Unit :=
  (s, Except.error (PyError.fuseError EINVAL))

def mkdir (_inode_p : Nat) (_name : String) (_mode : Nat) (s : FsState) :
    FsState × Except PyError Unit :=
  (s, Except.error (PyError.fuseError EINVAL))

def statfs (s : FsState) : FsState × Except PyError Unit :=
  (s, Except.error (PyError.fuseError EINVAL))

def create (_inode_p : Nat) (_name : String) (_mode _flags : Nat) (s : FsState) :
    FsState × Except PyError Unit :=
  (s, Except.error (PyError.fuseError EINVAL))

def write (_fd _offset : Nat) (_buf : List Nat) (s : FsState) : FsState × Except PyError Unit :=
  (s, Except.error (PyError.fuseError EINVAL))

/-! ### Initial state and concrete fixtures -/

/-- `stat.S_IREAD ||| stat.S_IFDIR ||| stat.S_IRGRP ||| stat.S_IROTH`
= 0o400 + 0o40000 + 0o40 + 0o4. -/
def rootMode : Nat := 16676

/-- `Timestamp()` — epoch instants (wire strings abstracted). -/
def epochTs : Timestamp :=
  { mtime := "1970-01-01T00:00:00", atime := "1970-01-01T00:00:00",
    ctime := "1970-01-01T00:00:00" }

/-- The root node built in `HttpFs.__init__`: `File(path='/',
inode=ROOT_INODE, mode=…, size=4096, timestamp=Timestamp())` with the
defaults `dev=1`, `parent=None`, `children=[]`, `walked=False`. -/
def rootFile : FileData :=
  { st_path := "/", st_dev := 1, st_inode := ROOT_INODE, st_mode := rootMode,
    st_nlink := 0, st_uid := 0, st_gid := 0, st_size := 4096,
    timestamp := epochTs, children := [], parent := none, walked := false }

/-- Bridge state right after `__init__` builds the maps (before the
synchronous root `_load_children` run): the root is object 0, registered
under `ROOT_INODE`; every other map empty.  The first `TemporaryFile`
descriptor is arbitrary (OS-chosen); we fix 100. -/
def initState : FsState :=
  { heap := [rootFile], inodeMap := [(ROOT_INODE, 0)], tmpfileMap := [],
    fdInodeMap := [], fdOpenCount := [], tmpfiles := [], nextFd := 100,
    fetchCount := 0 }

/-- A well-formed wire timestamp object. -/
def tsJson : TimestampJson :=
  { mtime := some "2020-01-01T00:00:00", atime := some "2020-01-01T00:00:00",
    ctime := some "2020-01-01T00:00:00" }

/-- A well-formed listing record: regular file `a.txt`, device 1, remote
inode 5, mode 0o100644, size 10. -/
def goodRec : JsonRecord :=
  { st_path := some "a.txt", st_dev := some 1, st_inode := some 5,
    st_mode := some 33188, st_nlink := some 1, st_uid := some 0,
    st_gid := some 0, st_size := some 10, timestamp := some tsJson,
    children := some [], parent := some none, walked := some false }

/-- The node `File.from_json goodRec` evaluates to. -/
def goodChild : FileData :=
  { st_path := "a.txt", st_dev := 1, st_inode := 5, st_mode := 33188,
    st_nlink := 1, st_uid := 0, st_gid := 0, st_size := 10,
    timestamp := { mtime := "2020-01-01T00:00:00", atime := "2020-01-01T00:00:00",
                   ctime := "2020-01-01T00:00:00" },
    children := [], parent := none, walked := false }

/-- A malformed record: the `st_size` key is missing, so
`File.from_json` raises `KeyError`. -/
def badRec : JsonRecord :=
  { goodRec with st_size := none }

/-- A server whose every listing is empty and that serves no file bodies. -/
def emptyRemote : Remote :=
  { listing := fun _ => Except.ok [], content := fun _ => Except.error PyError.httpError }

/-- A server answering every listing with `[goodRec]`. -/
def oneFileRemote : Remote :=
  { listing := fun _ => Except.ok [goodRec], content := fun _ => Except.error PyError.httpError }

/-- A server that serves the two bytes "hi" as every file body. -/
def contentRemote : Remote :=
  { listing := fun _ => Except.error PyError.httpError,
    content := fun _ => Except.ok [104, 105] }

/-- The state after one successful `open` of the root inode against
`contentRemote` (a live cache entry for inode 1 under descriptor 100). -/
def sOpenOnce : FsState := (fsOpen contentRemote "http://s" ROOT_INODE 0 initState).1

/-- A state whose open-file cache holds a 10-byte file under
descriptor 100. -/
def tenByteState : FsState :=
  { initState with tmpfiles := [(100, [0, 1, 2, 3, 4, 5, 6, 7, 8, 9])] }

/-! ## Lemma library -/

theorem dictLookup_erase_self {α : Type} (k : Nat) (m : List (Nat × α)) :
    dictLookup k (dictErase k m) = none := by
  induction m with
  | nil => rfl
  | cons p rest ih =>
    obtain ⟨k', v⟩ := p
    by_cases h : k' = k
    · simpa [dictErase, h] using ih
    · have h2 : k ≠ k' := fun hk => h hk.symm
      simpa [dictErase, dictLookup, h, h2] using ih

theorem dictLookup_erase_ne {α : Type} (k k' : Nat) (m : List (Nat × α)) (h : k ≠ k') :
    dictLookup k (dictErase k' m) = dictLookup k m := by
  induction m with
  | nil => rfl
  | cons p rest ih =>
    obtain ⟨k0, v⟩ := p
    by_cases hp : k0 = k'
    · have hk : k ≠ k0 := fun hk => h (hk ▸ hp)
      simpa [dictErase, dictLookup, hp, hk, h] using ih
    · by_cases hk : k = k0
      · simp [dictErase, dictLookup, hp, hk]
      · simpa [dictErase, dictLookup, hp, hk] using ih

theorem dictLookup_insert_self {α : Type} (k : Nat) (v : α) (m : List (Nat × α)) :
    dictLookup k (dictInsert k v m) = some v := by
  simp [dictInsert, dictLookup]

theorem dictLookup_insert_ne {α : Type} (k k' : Nat) (v : α) (m : List (Nat × α))
    (h : k ≠ k') : dictLookup k (dictInsert k' v m) = dictLookup k m := by
  simp only [dictInsert, dictLookup, h, if_false]
  exact dictLookup_erase_ne k k' m h

theorem heapGet_eq_getElem (s : FsState) (i : Nat) : heapGet s i = s.heap[i]? := by
  rw [heapGet, List.get?_eq_getElem?]

theorem heapGet_lt_length (s : FsState) (i : Nat) (d : FileData)
    (h : heapGet s i = some d) : i < s.heap.length := by
  by_contra hge
  rw [heapGet_eq_getElem, List.getElem?_eq_none (Nat.le_of_not_lt hge)] at h
  exact Option.noConfusion h

theorem heapGet_alloc_fst (s : FsState) (d x : FileData) (i : Nat)
    (h : heapGet s i = some x) : heapGet (heapAlloc s d).1 i = some x := by
  have hlt := heapGet_lt_length s i x h
  rw [heapGet_eq_getElem] at h ⊢
  show (s.heap ++ [d])[i]? = some x
  rw [List.getElem?_append_left hlt]
  exact h

theorem heapModify_inodeMap (s : FsState) (i : Nat) (f : FileData → FileData) :
    (heapModify s i f).inodeMap = s.inodeMap := by
  unfold heapModify; cases h : s.heap.get? i <;> rfl

theorem heapModify_tmpfileMap (s : FsState) (i : Nat) (f : FileData → FileData) :
    (heapModify s i f).tmpfileMap = s.tmpfileMap := by
  unfold heapModify; cases h : s.heap.get? i <;> rfl

theorem heapModify_fdInodeMap (s : FsState) (i : Nat) (f : FileData → FileData) :
    (heapModify s i f).fdInodeMap = s.fdInodeMap := by
  unfold heapModify; cases h : s.heap.get? i <;> rfl

theorem heapModify_fdOpenCount (s : FsState) (i : Nat) (f : FileData → FileData) :
    (heapModify s i f).fdOpenCount = s.fdOpenCount := by
  unfold heapModify; cases h : s.heap.get? i <;> rfl

theorem heapModify_tmpfiles (s : FsState) (i : Nat) (f : FileData → FileData) :
    (heapModify s i f).tmpfiles = s.tmpfiles := by
  unfold heapModify; cases h : s.heap.get? i <;> rfl

theorem heapModify_nextFd (s : FsState) (i : Nat) (f : FileData → FileData) :
    (heapModify s i f).nextFd = s.nextFd := by
  unfold heapModify; cases h : s.heap.get? i <;> rfl

theorem heapModify_fetchCount (s : FsState) (i : Nat) (f : FileData → FileData) :
    (heapModify s i f).fetchCount = s.fetchCount := by
  unfold heapModify; cases h : s.heap.get? i <;> rfl

theorem heapModify_length (s : FsState) (i : Nat) (f : FileData → FileData) :
    (heapModify s i f).heap.length = s.heap.length := by
  unfold heapModify; cases h : s.heap.get? i
  · rfl
  · simp

theorem heapGet_modify_ne (s : FsState) (i j : Nat) (f : FileData → FileData)
    (h : i ≠ j) : heapGet (heapModify s j f) i = heapGet s i := by
  unfold heapModify; cases hj : s.heap.get? j
  · rfl
  · rw [heapGet_eq_getElem, heapGet_eq_getElem]
    show (s.heap.set j _)[i]? = s.heap[i]?
    exact List.getElem?_set_ne (Ne.symm h)

theorem heapGet_modify_self (s : FsState) (i : Nat) (f : FileData → FileData)
    (x : FileData) (h : heapGet s i = some x) :
    heapGet (heapModify s i f) i = some (f x) := by
  have hlt := heapGet_lt_length s i x h
  rw [heapGet] at h
  unfold heapModify
  rw [h, heapGet_eq_getElem]
  show (s.heap.set i (f x))[i]? = some (f x)
  exact List.getElem?_set_eq_of_lt (f x) hlt

theorem heapModify_alloc (s : FsState) (d : FileData) (f : FileData → FileData) :
    heapModify { s with heap := s.heap ++ [d] } s.heap.length f
      = { s with heap := s.heap ++ [f d] } := by
  unfold heapModify
  rw [show ({ s with heap := s.heap ++ [d] } : FsState).heap.get? s.heap.length = some d by
    rw [List.get?_eq_getElem?]; exact List.getElem?_concat_length s.heap d]
  show ({ s with heap := (s.heap ++ [d]).set s.heap.length (f d) } : FsState) = _
  rw [List.set_append_right s.heap.length (f d) (Nat.le_refl _), Nat.sub_self]
  rfl

theorem heapModify_of_get (s : FsState) (i : Nat) (f : FileData → FileData) (x : FileData)
    (h : heapGet s i = some x) :
    heapModify s i f = { s with heap := s.heap.set i (f x) } := by
  unfold heapModify
  rw [heapGet] at h
  rw [h]

/-- Net state effect of one successful loop iteration of `_load_children`:
the parent's object is updated in place (`walked := true`, a reference to
the *second* copy appended), the two fresh copies sit at the end of the
heap — the first one, with `parent` set, registered in the inode map under
the record's synthetic inode. -/
theorem step_spec (pobjId : Nat) (cData c2Data : FileData) (s : FsState) (pd : FileData)
    (hp : heapGet s pobjId = some pd) :
    load_children_step pobjId cData c2Data s =
      { s with
          heap := s.heap.set pobjId
              { pd with walked := true, children := pd.children ++ [s.heap.length + 1] }
            ++ [{ cData with parent := some pobjId }, c2Data],
          inodeMap := dictInsert (l_inode cData) s.heap.length s.inodeMap } := by
  have hplt := heapGet_lt_length s pobjId pd hp
  have h3 : heapGet
      { s with heap := (s.heap ++ [{ cData with parent := some pobjId }]) ++ [c2Data] }
      pobjId = some pd := by
    rw [heapGet_eq_getElem]
    show ((s.heap ++ _) ++ _)[pobjId]? = _
    rw [List.getElem?_append_left (by simp; omega), List.getElem?_append_left hplt]
    rw [heapGet_eq_getElem] at hp
    exact hp
  simp only [load_children_step, heapAlloc, push_child, heapModify_alloc]
  rw [heapModify_of_get _ pobjId _ pd h3]
  simp [hplt, Nat.lt_succ_of_lt hplt]

theorem step_heapGet_parent (pobjId : Nat) (cData c2Data : FileData) (s : FsState)
    (pd : FileData) (hp : heapGet s pobjId = some pd) :
    heapGet (load_children_step pobjId cData c2Data s) pobjId =
      some { pd with walked := true, children := pd.children ++ [s.heap.length + 1] } := by
  have hplt := heapGet_lt_length s pobjId pd hp
  rw [step_spec pobjId cData c2Data s pd hp, heapGet_eq_getElem]
  show (List.set s.heap pobjId _ ++ _)[pobjId]? = _
  rw [List.getElem?_append_left (by simpa using hplt)]
  exact List.getElem?_set_eq_of_lt _ hplt

/-- The record loop only ever *sets* `walked` and *appends* children on the
directory being loaded, whatever happens to the remaining records. -/
theorem loop_mono (pobjId : Nat) (records : List JsonRecord) (s : FsState)
    (pd : FileData) (hp : heapGet s pobjId = some pd) :
    ∃ pd', heapGet (load_children_loop pobjId records s).1 pobjId = some pd' ∧
      (pd.walked = true → pd'.walked = true) ∧
      pd.children.length ≤ pd'.children.length := by
  induction records generalizing s pd with
  | nil => exact ⟨pd, hp, fun h => h, Nat.le_refl _⟩
  | cons f rest ih =>
    cases hf : File.from_json f with
    | error e =>
      simp only [load_children_loop, hf]
      exact ⟨pd, hp, fun h => h, Nat.le_refl _⟩
    | ok cData =>
      simp only [load_children_loop, hf]
      obtain ⟨pd', h1, h2, h3⟩ := ih _ _ (step_heapGet_parent pobjId cData cData s pd hp)
      refine ⟨pd', h1, fun _ => h2 rfl, ?_⟩
      refine Nat.le_trans ?_ h3
      simp

/-- When every record of the listing parses and none of them derives the
protected synthetic inode `K`, the loop succeeds, leaves the open-file
cache, the fetch counter and the binding of `K` untouched, and the
directory ends up `walked` exactly when it started `walked` or the listing
was nonempty. -/
theorem loop_ok (pobjId K : Nat) (records : List JsonRecord) (s : FsState)
    (pd : FileData) (hp : heapGet s pobjId = some pd)
    (hparse : ∀ f ∈ records, ∃ d, File.from_json f = Except.ok d ∧ l_inode d ≠ K) :
    (load_children_loop pobjId records s).2 = Except.ok () ∧
    dictLookup K (load_children_loop pobjId records s).1.inodeMap
      = dictLookup K s.inodeMap ∧
    (load_children_loop pobjId records s).1.tmpfileMap = s.tmpfileMap ∧
    (load_children_loop pobjId records s).1.fetchCount = s.fetchCount ∧
    ∃ pd', heapGet (load_children_loop pobjId records s).1 pobjId = some pd' ∧
      pd'.walked = (pd.walked || !records.isEmpty) := by
  induction records generalizing s pd with
  | nil =>
    refine ⟨rfl, rfl, rfl, rfl, pd, hp, ?_⟩
    simp [load_children_loop]
  | cons f rest ih =>
    obtain ⟨cData, hf, hK⟩ := hparse f (by simp)
    simp only [load_children_loop, hf]
    have hparse' : ∀ g ∈ rest, ∃ d, File.from_json g = Except.ok d ∧ l_inode d ≠ K :=
      fun g hg => hparse g (by simp [hg])
    obtain ⟨r1, r2, r3, r4, pd', h5, h6⟩ :=
      ih _ _ (step_heapGet_parent pobjId cData cData s pd hp) hparse'
    refine ⟨r1, ?_, ?_, ?_, pd', h5, ?_⟩
    · rw [r2, step_spec pobjId cData cData s pd hp]
      show dictLookup K (dictInsert (l_inode cData) s.heap.length s.inodeMap)
        = dictLookup K s.inodeMap
      exact dictLookup_insert_ne K (l_inode cData) _ _ (Ne.symm hK)
    · rw [r3, step_spec pobjId cData cData s pd hp]
    · rw [r4, step_spec pobjId cData cData s pd hp]
    · rw [h6]
      simp

/-! ## Claim theorems -/

/-- C1 counterexample: in a two-record listing whose second record is
malformed, the loop aborts with the parse failure, yet the first child is
already committed to the tree (`children` has one entry) and registered in
the inode map, and the directory is already marked loaded
(`walked = true`) — the attach is not atomic and `walked` is not set after
all children. -/
theorem C1_counterexample :
    (load_children_loop 0 [goodRec, badRec] initState).2
        = Except.error PyError.keyError ∧
    (heapGet (load_children_loop 0 [goodRec, badRec] initState).1 0).map FileData.walked
        = some true ∧
    (heapGet (load_children_loop 0 [goodRec, badRec] initState).1 0).map
        (fun d => d.children.length) = some 1 ∧
    dictLookup 5 (load_children_loop 0 [goodRec, badRec] initState).1.inodeMap
        = some 1 :=
  ⟨rfl, rfl, rfl, rfl⟩

/-- C1 (amended): `push_child` sets `walked` on *every* child attach, so as
soon as the first listing record parses, the directory is marked loaded and
that child stays committed, whatever happens to the remaining records
(including a parse failure partway). -/
theorem C1_partial_commit (pobjId : Nat) (f : JsonRecord) (rest : List JsonRecord)
    (s : FsState) (pd : FileData)
    (hp : heapGet s pobjId = some pd)
    (hf : ∃ d, File.from_json f = Except.ok d) :
    ∃ pd', heapGet (load_children_loop pobjId (f :: rest) s).1 pobjId = some pd' ∧
      pd'.walked = true ∧
      pd.children.length + 1 ≤ pd'.children.length := by
  obtain ⟨cData, hfc⟩ := hf
  simp only [load_children_loop, hfc]
  obtain ⟨pd', h1, h2, h3⟩ :=
    loop_mono pobjId rest _ _ (step_heapGet_parent pobjId cData cData s pd hp)
  refine ⟨pd', h1, h2 rfl, Nat.le_trans ?_ h3⟩
  simp

/-- C1 witness: the amended statement at the concrete two-record listing of
the counterexample. -/
theorem C1_partial_commit_witness :
    ∃ pd', heapGet (load_children_loop 0 [goodRec, badRec] initState).1 0 = some pd' ∧
      pd'.walked = true ∧
      rootFile.children.length + 1 ≤ pd'.children.length :=
  C1_partial_commit 0 goodRec [badRec] initState rootFile (by decide) ⟨goodChild, rfl⟩

/-- C2: `_load_children` calls `File.from_json(f)` twice; loading one
well-formed record registers object 1 (the copy whose `parent` was set to
the directory) in the inode map, but appends the distinct object 2 — whose
`parent` is the wire value `None` — to the directory's children.  The node
reachable through `children` is therefore not the node reachable through
the inode map, and the attached child has no parent set, contradicting the
spec's description of the loop. -/
theorem C2_two_copies_bug :
    dictLookup 5 (load_children_loop 0 [goodRec] initState).1.inodeMap = some 1 ∧
    (heapGet (load_children_loop 0 [goodRec] initState).1 0).map FileData.children
        = some [2] ∧
    (1 : Nat) ≠ 2 ∧
    (heapGet (load_children_loop 0 [goodRec] initState).1 1).map FileData.parent
        = some (some 0) ∧
    (heapGet (load_children_loop 0 [goodRec] initState).1 2).map FileData.parent
        = some none := by
  decide

/-- C3 counterexample: a directory whose listing is empty is *never*
marked loaded (`walked` is only set inside `push_child`), so the first
successful `readdir` does not transition the flag and the second `readdir`
fetches again (`fetchCount` reaches 2). -/
theorem C3_counterexample :
    (readdir emptyRemote "http://s" ROOT_INODE 0 initState).2 = Except.ok [] ∧
    (heapGet (readdir emptyRemote "http://s" ROOT_INODE 0 initState).1 0).map
        FileData.walked = some false ∧
    (readdir emptyRemote "http://s" ROOT_INODE 0 initState).1.fetchCount = 1 ∧
    (readdir emptyRemote "http://s" ROOT_INODE 0
        (readdir emptyRemote "http://s" ROOT_INODE 0 initState).1).1.fetchCount = 2 :=
  ⟨rfl, rfl, rfl, rfl⟩

/-- C4 counterexample: the devices 1 and 2 are both ≥ 1 and the remote
pairs (1, 6) and (2, 3) are distinct, yet both derive the synthetic
inode 6 — the derivation `device * inode` is not collision-free. -/
theorem C4_counterexample :
    l_inode { goodChild with st_dev := 1, st_inode := 6 }
        = l_inode { goodChild with st_dev := 2, st_inode := 3 } ∧
    ((1 : Nat), (6 : Nat)) ≠ ((2 : Nat), (3 : Nat)) ∧
    1 ≤ (1 : Nat) ∧ 1 ≤ (2 : Nat) := by
  decide

/-- C4 (amended): the derivation is collision-free only across entries
sharing one device id ≥ 1: for a fixed nonzero device, distinct remote
inodes give distinct synthetic inodes. -/
theorem C4_fixed_device_injective (d1 d2 : FileData)
    (hdev : d1.st_dev = d2.st_dev) (hpos : 1 ≤ d1.st_dev)
    (hne : d1.st_inode ≠ d2.st_inode) : l_inode d1 ≠ l_inode d2 := by
  intro h
  unfold l_inode at h
  rw [hdev] at h hpos
  exact hne (Nat.eq_of_mul_eq_mul_left (Nat.lt_of_lt_of_le Nat.zero_lt_one hpos) h)

/-- C4 witness: two same-device entries with remote inodes 5 and 7. -/
theorem C4_fixed_device_injective_witness :
    l_inode goodChild ≠ l_inode { goodChild with st_inode := 7 } :=
  C4_fixed_device_injective goodChild { goodChild with st_inode := 7 } rfl
    (by decide) (by decide)

/-- C5: every mutating operation — `unlink`, `rmdir`, `mkdir`, `mknod`,
`create`, `write`, `setattr`, `rename`, `link`, `symlink`, `statfs` —
fails with `FUSEError(EINVAL)` for all argument values and returns the
bridge state unchanged. -/
theorem C5_mutating_ops_rejected :
    (∀ p n s, unlink p n s = (s, Except.error (PyError.fuseError EINVAL))) ∧
    (∀ p n s, rmdir p n s = (s, Except.error (PyError.fuseError EINVAL))) ∧
    (∀ p n m s, mkdir p n m s = (s, Except.error (PyError.fuseError EINVAL))) ∧
    (∀ p n m rd s, mknod p n m rd s = (s, Except.error (PyError.fuseError EINVAL))) ∧
    (∀ p n m fl s, create p n m fl s = (s, Except.error (PyError.fuseError EINVAL))) ∧
    (∀ fd off buf s, write fd off buf s = (s, Except.error (PyError.fuseError EINVAL))) ∧
    (∀ i a fl fh s, setattr i a fl fh s = (s, Except.error (PyError.fuseError EINVAL))) ∧
    (∀ p n q m fl s, rename p n q m fl s = (s, Except.error (PyError.fuseError EINVAL))) ∧
    (∀ i q n s, link i q n s = (s, Except.error (PyError.fuseError EINVAL))) ∧
    (∀ p n t s, symlink p n t s = (s, Except.error (PyError.fuseError EINVAL))) ∧
    (∀ s, statfs s = (s, Except.error (PyError.fuseError EINVAL))) :=
  ⟨fun _ _ _ => rfl, fun _ _ _ => rfl, fun _ _ _ _ => rfl, fun _ _ _ _ _ => rfl,
   fun _ _ _ _ _ => rfl, fun _ _ _ _ => rfl, fun _ _ _ _ _ => rfl,
   fun _ _ _ _ _ _ => rfl, fun _ _ _ _ => rfl, fun _ _ _ _ => rfl, fun _ => rfl⟩

/-- C7 counterexample: for inode 99, absent from the Inode Directory,
`getattr`, `readdir` and `open` raise an uncaught `KeyError` (the map
subscripts are unguarded) instead of the not-found FUSE signal. -/
theorem C7_counterexample :
    (getattr 99 initState).2 = Except.error PyError.keyError ∧
    (readdir emptyRemote "http://s" 99 0 initState).2 = Except.error PyError.keyError ∧
    (fsOpen emptyRemote "http://s" 99 0 initState).2 = Except.error PyError.keyError ∧
    PyError.keyError ≠ PyError.fuseError ENOENT :=
  ⟨rfl, rfl, rfl, by decide⟩

/-- C7 (amended): for an inode absent from the Inode Directory, only
`lookup` (with a name other than `.`) converts the miss into
`FUSEError(ENOENT)`; `lookup` of `.`, `getattr`, `readdir` and `open`
(without the create flag and with no live cache entry) raise an uncaught
`KeyError` instead. -/
theorem C7_unknown_inode (s : FsState) (inode : Nat) (name : String)
    (r : Remote) (baseUrl : String) (off flags : Nat)
    (hmiss : dictLookup inode s.inodeMap = none)
    (hname : name ≠ ".")
    (hcache : dictLookup inode s.tmpfileMap = none)
    (hflags : flags &&& O_CREAT = 0) :
    (lookup inode name s).2 = Except.error (PyError.fuseError ENOENT) ∧
    (lookup inode "." s).2 = Except.error PyError.keyError ∧
    (getattr inode s).2 = Except.error PyError.keyError ∧
    (readdir r baseUrl inode off s).2 = Except.error PyError.keyError ∧
    (fsOpen r baseUrl inode flags s).2 = Except.error PyError.keyError := by
  refine ⟨?_, ?_, ?_, ?_, ?_⟩
  · by_cases hdd : name = ".."
    · simp [lookup, hdd, hmiss]
    · simp [lookup, hname, hdd, hmiss]
  · simp [lookup, getattr, hmiss]
  · simp [getattr, hmiss]
  · simp [readdir, hmiss]
  · simp [fsOpen, hcache, hflags, hmiss]

/-- C7 witness: the amended statement at inode 99 in the freshly
initialised bridge. -/
theorem C7_unknown_inode_witness :
    (lookup 99 "x" initState).2 = Except.error (PyError.fuseError ENOENT) ∧
    (lookup 99 "." initState).2 = Except.error PyError.keyError ∧
    (getattr 99 initState).2 = Except.error PyError.keyError ∧
    (readdir emptyRemote "http://s" 99 0 initState).2 = Except.error PyError.keyError ∧
    (fsOpen emptyRemote "http://s" 99 0 initState).2 = Except.error PyError.keyError :=
  C7_unknown_inode initState 99 "x" emptyRemote "http://s" 0 0 (by decide) (by decide)
    (by decide) (by decide)

/-- C8 counterexample: after one plain `open` of the root inode, a second
`open` with the create bit set is *not* rejected: the cache-hit branch
returns the live handle (100) before the `O_CREAT` assert runs. -/
theorem C8_counterexample :
    dictLookup ROOT_INODE sOpenOnce.tmpfileMap = some 100 ∧
    (fsOpen contentRemote "http://s" ROOT_INODE O_CREAT sOpenOnce).2 = Except.ok 100 :=
  ⟨rfl, rfl⟩

/-- C8 (amended): an `open` with the create bit set is rejected (failed
assert) only when the inode has no live cache entry; with a live entry the
flags are never inspected and the open succeeds with the existing handle,
incrementing its reference count. -/
theorem C8_create_flag (r : Remote) (baseUrl : String) (inode flags : Nat) (s : FsState)
    (hflag : flags &&& O_CREAT ≠ 0) :
    (dictLookup inode s.tmpfileMap = none →
      fsOpen r baseUrl inode flags s = (s, Except.error PyError.assertionError)) ∧
    (∀ fd n, dictLookup inode s.tmpfileMap = some fd →
      dictLookup fd s.fdOpenCount = some n →
      fsOpen r baseUrl inode flags s =
        ({ s with fdOpenCount := dictInsert fd (n + 1) s.fdOpenCount }, Except.ok fd)) := by
  constructor
  · intro hmiss
    simp [fsOpen, hmiss, hflag]
  · intro fd n hhit hcount
    simp [fsOpen, hhit, hcount]

/-- C8 witness: the amended statement at the state holding one live entry
for the root inode. -/
theorem C8_create_flag_witness :
    (dictLookup ROOT_INODE sOpenOnce.tmpfileMap = none →
      fsOpen contentRemote "http://s" ROOT_INODE O_CREAT sOpenOnce
        = (sOpenOnce, Except.error PyError.assertionError)) ∧
    (∀ fd n, dictLookup ROOT_INODE sOpenOnce.tmpfileMap = some fd →
      dictLookup fd sOpenOnce.fdOpenCount = some n →
      fsOpen contentRemote "http://s" ROOT_INODE O_CREAT sOpenOnce =
        ({ sOpenOnce with fdOpenCount := dictInsert fd (n + 1) sOpenOnce.fdOpenCount },
         Except.ok fd)) :=
  C8_create_flag contentRemote "http://s" ROOT_INODE O_CREAT sOpenOnce (by decide)

/-- C9: `read(handle, offset, length)` returns at most `length` bytes and
returns fewer only when `offset + length` runs past the cached file's end;
on the cached 10-byte file, `read(handle, 8, 5)` returns exactly the 2
remaining bytes. -/
theorem C9_read_bounds :
    (∀ fd offset length s content bytes,
      dictLookup fd s.tmpfiles = some content →
      (fsRead fd offset length s).2 = Except.ok bytes →
      bytes.length ≤ length ∧
        (bytes.length < length → content.length < offset + length)) ∧
    (fsRead 100 8 5 tenByteState).2 = Except.ok [8, 9] := by
  constructor
  · intro fd offset length s content bytes hfd hres
    unfold fsRead at hres
    rw [hfd] at hres
    simp only at hres
    have hb : bytes = (content.drop offset).take length :=
      (Except.ok.injEq _ _ ▸ hres).symm
    have hlen : bytes.length = min length (content.length - offset) := by
      rw [hb]; simp
    constructor
    · omega
    · intro h; omega
  · rfl

/-- C9 witness: the general bound instantiated at the 10-byte cached file
with `offset = 8`, `length = 5`. -/
theorem C9_read_bounds_witness :
    List.length [8, 9] ≤ 5 ∧
      (List.length [8, 9] < 5 →
        List.length [0, 1, 2, 3, 4, 5, 6, 7, 8, 9] < 8 + 5) :=
  C9_read_bounds.1 100 8 5 tenByteState [0, 1, 2, 3, 4, 5, 6, 7, 8, 9] [8, 9]
    (by decide) rfl

/-- C10: a `lookup` of `..` in a directory whose node has no parent (the
root) dereferences the absent parent: the `AttributeError` from
`None.l_inode()` is not among the handled cases (only `KeyError` is
caught), so the callback fails with the uncaught error rather than the
not-found signal. -/
theorem C10_dotdot_no_parent (s : FsState) (inode_p objId : Nat) (d : FileData)
    (hmap : dictLookup inode_p s.inodeMap = some objId)
    (hobj : heapGet s objId = some d)
    (hparent : d.parent = none) :
    (lookup inode_p ".." s).2 = Except.error PyError.attributeError ∧
    PyError.attributeError ≠ PyError.fuseError ENOENT := by
  refine ⟨?_, by decide⟩
  simp [lookup, hmap, hobj, hparent]

/-- C10 witness: `lookup(ROOT_INODE, "..")` on the freshly initialised
bridge (the root has `parent = None`). -/
theorem C10_dotdot_no_parent_witness :
    (lookup ROOT_INODE ".." initState).2 = Except.error PyError.attributeError ∧
    PyError.attributeError ≠ PyError.fuseError ENOENT :=
  C10_dotdot_no_parent initState ROOT_INODE 0 rootFile (by decide) (by decide) (by decide)

/-- C6: `release` is the inverse of `open` on the cache state: a second
`open` of the same inode returns the same handle (the fresh descriptor
`s.nextFd`) with reference count 2; one `release` leaves exactly one live
entry with count 1; the second `release` removes every trace of the
inode/handle from the three cache maps. -/
theorem C6_open_release (r : Remote) (baseUrl : String) (inode objId flags flags2 : Nat)
    (s : FsState) (fp : String) (bytes : List Nat)
    (hmiss : dictLookup inode s.tmpfileMap = none)
    (hflag : flags &&& O_CREAT = 0)
    (hmap : dictLookup inode s.inodeMap = some objId)
    (hfp : full_path s s.heap.length objId = some fp)
    (hcontent : r.content (baseUrl ++ fp) = Except.ok bytes) :
    (fsOpen r baseUrl inode flags s).2 = Except.ok s.nextFd ∧
    (fsOpen r baseUrl inode flags2 (fsOpen r baseUrl inode flags s).1).2
        = Except.ok s.nextFd ∧
    dictLookup s.nextFd
        (fsOpen r baseUrl inode flags2 (fsOpen r baseUrl inode flags s).1).1.fdOpenCount
        = some 2 ∧
    (release s.nextFd
        (fsOpen r baseUrl inode flags2 (fsOpen r baseUrl inode flags s).1).1).2
        = Except.ok () ∧
    dictLookup inode
        (release s.nextFd
          (fsOpen r baseUrl inode flags2 (fsOpen r baseUrl inode flags s).1).1).1.tmpfileMap
        = some s.nextFd ∧
    dictLookup s.nextFd
        (release s.nextFd
          (fsOpen r baseUrl inode flags2 (fsOpen r baseUrl inode flags s).1).1).1.fdOpenCount
        = some 1 ∧
    (release s.nextFd
        (release s.nextFd
          (fsOpen r baseUrl inode flags2 (fsOpen r baseUrl inode flags s).1).1).1).2
        = Except.ok () ∧
    dictLookup inode
        (release s.nextFd
          (release s.nextFd
            (fsOpen r baseUrl inode flags2
              (fsOpen r baseUrl inode flags s).1).1).1).1.tmpfileMap = none ∧
    dictLookup s.nextFd
        (release s.nextFd
          (release s.nextFd
            (fsOpen r baseUrl inode flags2
              (fsOpen r baseUrl inode flags s).1).1).1).1.fdOpenCount = none ∧
    dictLookup s.nextFd
        (release s.nextFd
          (release s.nextFd
            (fsOpen r baseUrl inode flags2
              (fsOpen r baseUrl inode flags s).1).1).1).1.fdInodeMap = none := by
  have h1 : fsOpen r baseUrl inode flags s =
      ({ s with nextFd := s.nextFd + 1, fetchCount := s.fetchCount + 1,
                tmpfiles := dictInsert s.nextFd bytes s.tmpfiles,
                tmpfileMap := dictInsert inode s.nextFd s.tmpfileMap,
                fdInodeMap := dictInsert s.nextFd inode s.fdInodeMap,
                fdOpenCount := dictInsert s.nextFd 1 s.fdOpenCount },
       Except.ok s.nextFd) := by
    simp [fsOpen, hmiss, hflag, hmap, hfp, hcontent]
  rw [h1]
  simp [fsOpen, release, dictLookup_insert_self, dictLookup_erase_self]

/-- C6 witness: the open/open/release/release sequence on the root inode of
the freshly initialised bridge against a server serving a 2-byte body
(`flags2 = O_CREAT` also exercises the flag-blind cache-hit path). -/
theorem C6_open_release_witness :
    (fsOpen contentRemote "http://s" ROOT_INODE 0 initState).2 = Except.ok 100 ∧
    (fsOpen contentRemote "http://s" ROOT_INODE 64
        (fsOpen contentRemote "http://s" ROOT_INODE 0 initState).1).2 = Except.ok 100 ∧
    dictLookup 100
        (fsOpen contentRemote "http://s" ROOT_INODE 64
          (fsOpen contentRemote "http://s" ROOT_INODE 0 initState).1).1.fdOpenCount
        = some 2 ∧
    (release 100
        (fsOpen contentRemote "http://s" ROOT_INODE 64
          (fsOpen contentRemote "http://s" ROOT_INODE 0 initState).1).1).2
        = Except.ok () ∧
    dictLookup ROOT_INODE
        (release 100
          (fsOpen contentRemote "http://s" ROOT_INODE 64
            (fsOpen contentRemote "http://s" ROOT_INODE 0 initState).1).1).1.tmpfileMap
        = some 100 ∧
    dictLookup 100
        (release 100
          (fsOpen contentRemote "http://s" ROOT_INODE 64
            (fsOpen contentRemote "http://s" ROOT_INODE 0 initState).1).1).1.fdOpenCount
        = some 1 ∧
    (release 100
        (release 100
          (fsOpen contentRemote "http://s" ROOT_INODE 64
            (fsOpen contentRemote "http://s" ROOT_INODE 0 initState).1).1).1).2
        = Except.ok () ∧
    dictLookup ROOT_INODE
        (release 100
          (release 100
            (fsOpen contentRemote "http://s" ROOT_INODE 64
              (fsOpen contentRemote "http://s" ROOT_INODE 0 initState).1).1).1).1.tmpfileMap
        = none ∧
    dictLookup 100
        (release 100
          (release 100
            (fsOpen contentRemote "http://s" ROOT_INODE 64
              (fsOpen contentRemote "http://s" ROOT_INODE 0 initState).1).1).1).1.fdOpenCount
        = none ∧
    dictLookup 100
        (release 100
          (release 100
            (fsOpen contentRemote "http://s" ROOT_INODE 64
              (fsOpen contentRemote "http://s" ROOT_INODE 0 initState).1).1).1).1.fdInodeMap
        = none :=
  C6_open_release contentRemote "http://s" ROOT_INODE 0 0 64 initState "/" [104, 105]
    rfl (by decide) rfl rfl rfl

/-- C3 (amended): for a directory not yet loaded whose listing is
*nonempty* (every record parsing, none colliding with the directory's own
inode), the first `readdir` succeeds, performs exactly one fetch, and
marks the directory `walked`; afterwards any further `readdir` of that
inode is the identity on the state — in particular it performs no network
fetch.  (The empty-listing case is refuted by the counterexample.) -/
theorem C3_first_readdir (r : Remote) (baseUrl : String) (inode objId off : Nat)
    (s : FsState) (d : FileData) (fp : String) (records : List JsonRecord)
    (hmap : dictLookup inode s.inodeMap = some objId)
    (hobj : heapGet s objId = some d)
    (hw : d.walked = false)
    (hfp : full_path s s.heap.length objId = some fp)
    (hlist : r.listing (baseUrl ++ fp) = Except.ok records)
    (hne : records ≠ [])
    (hparse : ∀ f ∈ records, ∃ dd, File.from_json f = Except.ok dd ∧ l_inode dd ≠ inode) :
    ∃ entries, (readdir r baseUrl inode off s).2 = Except.ok entries ∧
      (readdir r baseUrl inode off s).1.fetchCount = s.fetchCount + 1 ∧
      (∃ d', heapGet (readdir r baseUrl inode off s).1 objId = some d' ∧
        d'.walked = true) ∧
      ∀ off2, readdir r baseUrl inode off2 (readdir r baseUrl inode off s).1
          = ((readdir r baseUrl inode off s).1,
             readdir_emit (readdir r baseUrl inode off s).1 objId off2) := by
  have hobj1 : heapGet { s with fetchCount := s.fetchCount + 1 } objId = some d := hobj
  obtain ⟨r1, r2, r3, r4, d', h5, h6⟩ :=
    loop_ok objId inode records { s with fetchCount := s.fetchCount + 1 } d hobj1 hparse
  have hw2 : d'.walked = true := by
    rw [h6]
    cases records with
    | nil => exact absurd rfl hne
    | cons a l => simp
  have hlc : load_children r baseUrl objId s
      = ((load_children_loop objId records { s with fetchCount := s.fetchCount + 1 }).1,
         Except.ok ()) := by
    unfold load_children
    simp only [hfp, hlist]
    rw [← r1]
  have hread : readdir r baseUrl inode off s
      = ((load_children_loop objId records { s with fetchCount := s.fetchCount + 1 }).1,
         readdir_emit
           (load_children_loop objId records { s with fetchCount := s.fetchCount + 1 }).1
           objId off) := by
    simp [readdir, hmap, hobj, hw, hlc]
  have hemit : ∀ off3 : Nat, ∃ entries,
      readdir_emit
        (load_children_loop objId records { s with fetchCount := s.fetchCount + 1 }).1
        objId off3 = Except.ok entries := by
    intro off3
    unfold readdir_emit
    rw [h5]
    exact ⟨_, rfl⟩
  obtain ⟨entries, he⟩ := hemit off
  refine ⟨entries, ?_, ?_, ⟨d', ?_, hw2⟩, ?_⟩
  · rw [hread]
    exact he
  · rw [hread]
    exact r4
  · rw [hread]
    exact h5
  · intro off2
    rw [hread]
    have hmap2 : dictLookup inode
        (load_children_loop objId records
          { s with fetchCount := s.fetchCount + 1 }).1.inodeMap = some objId := by
      rw [r2]
      exact hmap
    simp [readdir, hmap2, h5, hw2]

/-- C3 witness: the amended statement for the root directory of the fresh
bridge against a server listing one file. -/
theorem C3_first_readdir_witness :
    ∃ entries,
      (readdir oneFileRemote "http://s" ROOT_INODE 0 initState).2 = Except.ok entries ∧
      (readdir oneFileRemote "http://s" ROOT_INODE 0 initState).1.fetchCount = 0 + 1 ∧
      (∃ d', heapGet (readdir oneFileRemote "http://s" ROOT_INODE 0 initState).1 0
          = some d' ∧ d'.walked = true) ∧
      ∀ off2, readdir oneFileRemote "http://s" ROOT_INODE off2
            (readdir oneFileRemote "http://s" ROOT_INODE 0 initState).1
          = ((readdir oneFileRemote "http://s" ROOT_INODE 0 initState).1,
             readdir_emit (readdir oneFileRemote "http://s" ROOT_INODE 0 initState).1
               0 off2) :=
  C3_first_readdir oneFileRemote "http://s" ROOT_INODE 0 0 initState rootFile "/"
    [goodRec] (by decide) rfl rfl rfl rfl (by decide)
    (by intro f hf
        rw [List.mem_singleton] at hf
        exact ⟨goodChild, by rw [hf]; rfl, by decide⟩)
